import Mathlib

/-!
Shallow embedding of the `logs` package (asynchronous multi-sink logger with a
rotating file sink).  Go machine integers (`int`, `int64`) are modelled as `Int`;
the filesystem is modelled as a partial map from path to file content; the
channels and goroutines of the dispatcher are modelled by explicit state
(a queue list) and by traces of the actions a function performs, in order.
-/

set_option maxRecDepth 8000

namespace Logs

/-- LogLevel mirrors `type LogLevel int` with the iota constants of logs.go. -/
abbrev LogLevel := Int

def TRACE : LogLevel := 0
def DEBUG : LogLevel := 1
def INFO : LogLevel := 2
def WARN : LogLevel := 3
def ERROR : LogLevel := 4
def CRITICAL : LogLevel := 5
def FATAL : LogLevel := 6

/-- LogType mirrors `type LogType int` (LogConsole = 0, LogFile = 1). -/
abbrev LogType := Int

def LogConsole : LogType := 0
def LogFile : LogType := 1

/-- String method of LogType (logs.go): "console" for LogConsole, "file" for
LogFile, "" otherwise. -/
def LogType.string (t : LogType) : String :=
  if t = LogConsole then "console" else if t = LogFile then "file" else ""

/-- Result of one frame of `runtime.Caller`/`runtime.FuncForPC` in `writeMsg`:
the resolved function name (none models `fn == nil`), source file and line.
`none` at the outer option models `ok == false` from `runtime.Caller`. -/
structure Frame where
  fnName : Option String
  file : String
  line : Int
deriving DecidableEq

/-- Go `strings.TrimLeft(s, ".")`: drop every leading dot. -/
def trimLeftDot (s : String) : String :=
  String.mk (s.toList.dropWhile (fun c => c = '.'))

/-- Recursion for `goExt`: the suffix starting at the last dot of the list,
empty when there is no dot after the last slash (Go `filepath.Ext`). -/
def goExtList : List Char → List Char
  | [] => []
  | c :: rest =>
    let r := goExtList rest
    if r.isEmpty then
      if c = '.' && rest.all (fun x => x ≠ '/') then c :: rest else []
    else r

/-- Go `filepath.Ext`: suffix beginning at the final dot in the final
slash-separated element of the path; empty if there is no dot. -/
def goExt (s : String) : String := String.mk (goExtList s.toList)

/-- File-name truncation of `writeMsg`: paths longer than 20 characters keep
only their last 20 characters behind an ellipsis marker. -/
def truncFile (file : String) : String :=
  if file.length > 20 then
    "..." ++ String.mk (file.toList.drop (file.length - 20))
  else file

/-- Function-name rendering of `writeMsg`: "?()" when `fn == nil`, otherwise
`strings.TrimLeft(filepath.Ext(fn.Name()), ".") + "()"`. -/
def frameFn (f : Option String) : String :=
  match f with
  | none => "?()"
  | some name => trimLeftDot (goExt name) ++ "()"

/-- Caller-context enrichment of `writeMsg` for levels at or above ERROR:
`[<truncated-file>:<line> <function>()] <msg>` when the stack resolved,
the raw message otherwise. -/
def enrichMsg (caller : Option Frame) (msg : String) : String :=
  match caller with
  | none => msg
  | some fr =>
      "[" ++ truncFile fr.file ++ ":" ++ toString fr.line ++ " "
        ++ frameFn fr.fnName ++ "] " ++ msg

/-- Envelope `logMsg` of logs.go. -/
structure logMsg where
  skip : Int
  level : LogLevel
  msg : String
deriving DecidableEq

/-- Filter-and-enqueue state of the Go `Logger` struct: the global minimum
level and the buffered message channel (modelled as the list of queued
envelopes, in order).  The outputs map is modelled separately by `DispState`. -/
structure Logger where
  level : LogLevel
  msgChan : List logMsg
deriving DecidableEq

/-- Logger.writeMsg (logs.go): a message below the dispatcher-global level is
dropped, returning nil; otherwise the envelope (context-enriched when the
level is at least ERROR and the caller stack resolved) is enqueued and nil is
returned.  The second component is the returned error (always `none`). -/
def Logger.writeMsg (l : Logger) (caller : Option Frame) (skip : Int)
    (level : LogLevel) (msg : String) : Logger × Option String :=
  if l.level > level then (l, none)
  else
    let m := if level ≥ ERROR then enrichMsg caller msg else msg
    ({ l with msgChan := l.msgChan ++ [⟨skip, level, m⟩] }, none)

/-- Observable dispatcher-level actions, used to record what a lifecycle call
performs, in order. -/
inductive DispAct where
  | submitMsg (skip : Int) (level : LogLevel) (msg : String)
  | flushSinks
  | closeLoop
  | exitProc (code : Int)
deriving DecidableEq

/-- Trace of Logger.Fatal (logs.go): it formats the message with the "[F] "
tag and submits it via writerMsg, then calls Close (which signals the quit
channel), then calls os.Exit(1).  No other call appears in its body. -/
def Logger.FatalTrace (skip : Int) (msg : String) : List DispAct :=
  [DispAct.submitMsg skip FATAL ("[F] " ++ msg),
   DispAct.closeLoop,
   DispAct.exitProc 1]

/-- Outcome of a dispatcher registry call: normal return or a Go `panic`
(which halts the process when not recovered; nothing in this package
recovers it). -/
inductive CallOutcome where
  | ok
  | panicked (msg : String)
deriving DecidableEq

/-- Sink-map half of the Go `Logger`: the `outputs` map (kind to live sink
instance, instances numbered by creation), the next instance number, and the
list of instances whose underlying handle has been opened and not yet closed
by Destroy. -/
structure DispState where
  outputs : List (LogType × Nat)
  nextId : Nat
  handles : List Nat
deriving DecidableEq

/-- Lookup in the outputs association list (Go map read). -/
def lookupOut : List (LogType × Nat) → LogType → Option Nat
  | [], _ => none
  | (k, v) :: rest, t => if k = t then some v else lookupOut rest t

/-- Assignment in the outputs association list (Go map write: replaces any
previous binding of the key). -/
def setOut : List (LogType × Nat) → LogType → Nat → List (LogType × Nat)
  | [], t, v => [(t, v)]
  | (k, w) :: rest, t, v =>
      if k = t then (t, v) :: rest else (k, w) :: setOut rest t v

/-- Deletion from the outputs association list (Go `delete`). -/
def delOut : List (LogType × Nat) → LogType → List (LogType × Nat)
  | [], _ => []
  | (k, w) :: rest, t => if k = t then rest else (k, w) :: delOut rest t

/-- Logger.AddLogger (logs.go): when the kind has a registered generator the
new instance is constructed (opening its handle) and assigned into the
outputs map — the previous instance of that kind, if any, is not closed;
when the kind is unregistered it panics with "log: unknown adapter" plus the
kind's String().  `adapters` is the contents of the package-level generator
map. -/
def Logger.AddLogger (adapters : LogType → Bool) (s : DispState) (t : LogType) :
    DispState × CallOutcome :=
  if adapters t then
    ({ outputs := setOut s.outputs t s.nextId,
       nextId := s.nextId + 1,
       handles := s.handles ++ [s.nextId] }, CallOutcome.ok)
  else
    (s, CallOutcome.panicked ("log: unknown adapter" ++ LogType.string t))

/-- Logger.DelLogger (logs.go): when the kind is present its instance is
destroyed (closing its handle) and removed from the map; otherwise it panics. -/
def Logger.DelLogger (s : DispState) (t : LogType) : DispState × CallOutcome :=
  match lookupOut s.outputs t with
  | some id =>
      ({ s with outputs := delOut s.outputs t,
                handles := s.handles.erase id }, CallOutcome.ok)
  | none => (s, CallOutcome.panicked ("log: unknown adapter" ++ LogType.string t))

/-- Filesystem model: a partial map from path to file content. -/
abbrev FS := String → Option String

/-- Creation or overwrite of a file. -/
def FS.insert (fs : FS) (p c : String) : FS :=
  fun q => if q = p then some c else fs q

/-- Removal of a file. -/
def FS.remove (fs : FS) (p : String) : FS :=
  fun q => if q = p then none else fs q

/-- Append to a file (O_APPEND write through an open descriptor). -/
def FS.append (fs : FS) (p s : String) : FS :=
  fun q => if q = p then some ((fs p).getD "" ++ s) else fs q

/-- State of the rotating file sink (file.go), fields in source order.
`mw_fd` is the MuxWriter's descriptor, modelled as the path of the open file
(`none` = closed). -/
structure FileLogWriter where
  mw_fd : Option String
  Filename : String
  Maxlines : Int
  maxlines_curlines : Int
  Maxsize : Int
  maxsize_cursize : Int
  Daily : Bool
  Maxdays : Int
  daily_opendata : Int
  Rotate : Bool
  Level : LogLevel
deriving DecidableEq

/-- Length of Go `strings.Split(s, "\n")`: one more than the number of
newline characters in `s`. -/
def countSplitNewline (s : String) : Nat := s.toList.count '\n' + 1

/-- Segments of a character list between newline characters, leftmost
first (the list-level splitting on the newline character). -/
def splitNl : List Char → List (List Char)
  | [] => [[]]
  | c :: rest =>
    match splitNl rest with
    | [] => [[]]
    | s :: ss => if c = '\n' then [] :: s :: ss else (c :: s) :: ss

/-- Number of newline-delimited records in a file content, as the spec words
it: the non-empty segments between newlines.  (Second definition following
the spec's words, for comparison with what initFd computes.) -/
def newlineRecords (s : String) : Nat :=
  ((splitNl s.toList).filter (fun t => t ≠ [])).length

/-- FileLogWriter.createLogFile (file.go): ensure the parent directory,
then open `Filename` with O_WRONLY|O_APPEND|O_CREATE — in the model, create
the file empty when absent.  Returns the updated filesystem and the
descriptor (the path). -/
def FileLogWriter.createLogFile (w : FileLogWriter) (fs : FS) : FS × String :=
  (if (fs w.Filename).isNone then FS.insert fs w.Filename "" else fs, w.Filename)

/-- MuxWriter.setFd: close any previous descriptor and install the new one. -/
def FileLogWriter.setFd (w : FileLogWriter) (fd : String) : FileLogWriter :=
  { w with mw_fd := some fd }

/-- FileLogWriter.initFd (file.go): stat the open descriptor; set
maxlines_curlines to the file size and daily_opendata to the current day;
when the file is non-empty re-read `Filename` and set maxlines_curlines to
`len(strings.Split(content, "\n"))`, otherwise set it to 0.  Note that
maxsize_cursize is never touched. -/
def FileLogWriter.initFd (w : FileLogWriter) (fs : FS) (today : Int) :
    Except String FileLogWriter :=
  match w.mw_fd with
  | none => Except.error "get stat"
  | some p =>
    match fs p with
    | none => Except.error "get stat"
    | some fdContent =>
      let w1 := { w with maxlines_curlines := (fdContent.length : Int),
                         daily_opendata := today }
      if fdContent.length > 0 then
        match fs w.Filename with
        | none => Except.error "read file"
        | some content =>
            Except.ok { w1 with maxlines_curlines := (countSplitNewline content : Int) }
      else Except.ok { w1 with maxlines_curlines := 0 }

/-- FileLogWriter.startLogger (file.go): createLogFile, install the
descriptor, then initFd. -/
def FileLogWriter.startLogger (w : FileLogWriter) (fs : FS) (today : Int) :
    Except String (FileLogWriter × FS) :=
  let cf := w.createLogFile fs
  let w1 := w.setFd cf.2
  match w1.initFd cf.1 today with
  | Except.ok w2 => Except.ok (w2, cf.1)
  | Except.error e => Except.error e

/-- Decimal digit character. -/
def digitChar (n : Nat) : Char := Char.ofNat (48 + n)

/-- Go `fmt.Sprintf("%03d", n)`: zero-padded three-digit decimal rendering
(the probing loop only ever passes 1..999, all covered by the first three
branches; larger numbers render with all their digits). -/
def fmt3 (n : Nat) : String :=
  if n < 10 then String.mk ['0', '0', digitChar n]
  else if n < 100 then String.mk ['0', digitChar (n / 10), digitChar (n % 10)]
  else if n < 1000 then
    String.mk [digitChar (n / 100), digitChar (n / 10 % 10), digitChar (n % 10)]
  else toString n

/-- Rotated filename computed inside doRotate's probing loop:
`Filename + fmt.Sprintf(".%s.%03d", date, num)`. -/
def rotName (base d : String) (n : Nat) : String :=
  base ++ "." ++ d ++ "." ++ fmt3 n

/-- Probing loop of doRotate (file.go): starting at `num`, while the probed
name exists and `num <= 999`, advance; return the first unused name, or none
when the bound is exhausted.  The fuel equals `1000 - num` at every call, so
it runs out exactly when `num` passes 999. -/
def findFreeNameFrom (fs : FS) (base d : String) : Nat → Nat → Option String
  | _, 0 => none
  | num, fuel + 1 =>
    if num ≤ 999 then
      if (fs (rotName base d num)).isSome then
        findFreeNameFrom fs base d (num + 1) fuel
      else some (rotName base d num)
    else none

/-- The probing loop as entered by doRotate: sequence numbers from 1. -/
def findFreeName (fs : FS) (base d : String) : Option String :=
  findFreeNameFrom fs base d 1 999

/-- Result of a successful doRotate: the sink state, the filesystem, the name
the active file was renamed to (none when no action was taken), and whether
the retention-sweep goroutine was spawned. -/
structure RotateOut where
  w : FileLogWriter
  fs : FS
  renamed : Option String
  sweepSpawned : Bool

/-- FileLogWriter.doRotate (file.go): if Lstat of the active file fails the
whole body is skipped and nil is returned; otherwise probe rotated names
.date.001 .. .date.999, failing when none is free; then close the
descriptor, rename the active file to the chosen name, restart the logger
(reopen + initFd) and spawn the retention sweep. -/
def FileLogWriter.doRotate (w : FileLogWriter) (fs : FS) (today : Int) (d : String) :
    Except String RotateOut :=
  match fs w.Filename with
  | none => Except.ok ⟨w, fs, none, false⟩
  | some content =>
    match findFreeName fs w.Filename d with
    | none =>
        Except.error ("rotate: cannot find free log number ot rename " ++ w.Filename ++ "\n")
    | some fname =>
      let w0 := { w with mw_fd := none }
      let fs1 := FS.insert (FS.remove fs w.Filename) fname content
      match w0.startLogger fs1 today with
      | Except.error e => Except.error ("Rotate StartLogger: " ++ e ++ "\n")
      | Except.ok wf => Except.ok ⟨wf.1, wf.2, some fname, true⟩

/-- Rotation condition of docheck (file.go): Rotate enabled and any of the
line bound, size bound, or day rollover holds. -/
def FileLogWriter.needRotate (w : FileLogWriter) (today : Int) : Bool :=
  w.Rotate &&
    ((decide (w.Maxlines > 0) && decide (w.maxlines_curlines ≥ w.Maxlines)) ||
     (decide (w.Maxsize > 0) && decide (w.maxsize_cursize ≥ w.Maxsize)) ||
     (w.Daily && decide (today ≠ w.daily_opendata)))

/-- FileLogWriter.docheck (file.go): under the rotation lock, rotate when the
condition holds; on rotation failure print to stderr and return — without
incrementing; otherwise increment maxlines_curlines by one and
maxsize_cursize by the estimated record size. -/
def FileLogWriter.docheck (w : FileLogWriter) (fs : FS) (today : Int)
    (d : String) (size : Int) : FileLogWriter × FS :=
  if w.needRotate today then
    match w.doRotate fs today d with
    | Except.error _ => (w, fs)
    | Except.ok r =>
        ({ r.w with maxlines_curlines := r.w.maxlines_curlines + 1,
                    maxsize_cursize := r.w.maxsize_cursize + size }, r.fs)
  else
    ({ w with maxlines_curlines := w.maxlines_curlines + 1,
              maxsize_cursize := w.maxsize_cursize + size }, fs)

/-- FileLogWriter.WriteMsg (file.go): drop (returning nil) when the level is
below the sink's Level; otherwise docheck with the estimated size
24 + len(msg) and append the timestamped line through the descriptor.
`stamp` is the "2013/06/23 21:00:22 " style prefix the embedded log.Logger
writes. -/
def FileLogWriter.WriteMsg (w : FileLogWriter) (fs : FS) (today : Int)
    (d stamp msg : String) (skip : Int) (level : LogLevel) :
    FileLogWriter × FS × Option String :=
  if level < w.Level then (w, fs, none)
  else
    let n : Int := 24 + (msg.length : Int)
    let wf := w.docheck fs today d n
    match wf.1.mw_fd with
    | some p => (wf.1, FS.append wf.2 p (stamp ++ msg ++ "\n"), none)
    | none => (wf.1, wf.2, none)

/-- FileInfo as seen by the walk callback: directory flag and modification
time (Unix seconds). -/
structure Finfo where
  isDir : Bool
  modTime : Int
deriving DecidableEq

/-- One visit of filepath.Walk inside deleteOldLog: the visited path and its
FileInfo.  `info = none` models a per-file walk error (lstat failure,
concurrent deletion), for which Walk passes a nil FileInfo to the callback. -/
structure WalkEntry where
  path : String
  info : Option Finfo
deriving DecidableEq

/-- Go `strings.HasPrefix(s, pre)`, computed over the character lists. -/
def goHasPre (pre s : String) : Bool := pre.toList.isPrefixOf s.toList

/-- Go `filepath.Base`: "." for the empty path, "/" for all-slash paths,
otherwise the last element after trimming trailing slashes. -/
def goBase (s : String) : String :=
  if s = "" then "."
  else
    let t := (s.toList.reverse.dropWhile (fun c => c = '/')).reverse
    if t = [] then "/"
    else String.mk ((t.reverse.takeWhile (fun c => c ≠ '/')).reverse)

/-- One callback invocation of deleteOldLog's filepath.Walk (file.go).
With a nil FileInfo the `info.IsDir()` dereference panics; the deferred
recover catches it and sets the callback's return error to the
"Unable to delete old log" diagnostic.  Otherwise a non-directory file older
than `Maxdays` days whose base name starts with the base name of `Filename`
is removed (the os.Remove error itself is ignored), and nil is returned.
Result: (file removed?, error the callback returns to Walk). -/
def FileLogWriter.sweepStep (w : FileLogWriter) (now : Int) (e : WalkEntry) :
    Bool × Option String :=
  match e.info with
  | none => (false, some ("Unable to delete old log " ++ e.path))
  | some info =>
    if !info.isDir && decide (info.modTime < now - 60 * 60 * 24 * w.Maxdays) then
      if goHasPre (goBase w.Filename) (goBase e.path) then (true, none)
      else (false, none)
    else (false, none)

/-- FileLogWriter.deleteOldLog (file.go): filepath.Walk over the directory
entries in order.  Go's filepath.Walk stops the whole walk as soon as the
callback returns a non-nil error, so entries after the first failing one are
never visited.  Result: the removed paths, and the error the walk ended
with. -/
def FileLogWriter.deleteOldLog (w : FileLogWriter) (now : Int) :
    List WalkEntry → List String × Option String
  | [] => ([], none)
  | e :: rest =>
    match (w.sweepStep now e).2 with
    | some err => ([], some err)
    | none =>
      let r := w.deleteOldLog now rest
      (if (w.sweepStep now e).1 then e.path :: r.1 else r.1, r.2)

/-! Concrete instances used by witnesses and counterexamples. -/

/-- Empty dispatcher sink-map state. -/
def s0 : DispState := { outputs := [], nextId := 0, handles := [] }

/-- Adapter map with every kind registered. -/
def adAll : LogType → Bool := fun _ => true

/-- Adapter map with only the console kind registered (the package's init
registers only the console generator). -/
def adConsole : LogType → Bool := fun t => decide (t = LogConsole)

/-- Empty filesystem. -/
def fsEmpty : FS := fun _ => none

/-- File sink with minimum severity INFO and rotation disabled. -/
def wInfo : FileLogWriter :=
  { mw_fd := some "f", Filename := "f", Maxlines := 10000, maxlines_curlines := 0,
    Maxsize := 0, maxsize_cursize := 0, Daily := false, Maxdays := 7,
    daily_opendata := 1, Rotate := false, Level := INFO }

/-- Filesystem holding only the empty active file "f". -/
def fsF : FS := fun q => if q = "f" then some "" else none

/-- File sink one write away from a line-bound rotation, with 100 bytes
already accounted to the open file. -/
def wRot : FileLogWriter :=
  { mw_fd := some "log/log.log", Filename := "log/log.log", Maxlines := 1,
    maxlines_curlines := 1, Maxsize := 0, maxsize_cursize := 100, Daily := false,
    Maxdays := 7, daily_opendata := 0, Rotate := true, Level := TRACE }

/-- Filesystem holding the active file with one complete record. -/
def fsRot : FS := fun q => if q = "log/log.log" then some "x\n" else none

/-- File sink whose stat-derived line count would be re-derived on reopen. -/
def wReopen : FileLogWriter :=
  { mw_fd := some "f", Filename := "f", Maxlines := 10000, maxlines_curlines := 0,
    Maxsize := 0, maxsize_cursize := 0, Daily := false, Maxdays := 7,
    daily_opendata := 0, Rotate := true, Level := TRACE }

/-- Filesystem with a pre-existing file containing one newline-terminated
record. -/
def fsOneRec : FS := fun q => if q = "f" then some "a\n" else none

/-- File sink for the rotation-naming witness. -/
def wSeq : FileLogWriter :=
  { mw_fd := some "f", Filename := "f", Maxlines := 10000, maxlines_curlines := 0,
    Maxsize := 0, maxsize_cursize := 0, Daily := true, Maxdays := 7,
    daily_opendata := 0, Rotate := true, Level := TRACE }

/-- Filesystem in which the active file and the day's .001 rotated file both
exist. -/
def fsSeq : FS :=
  fun q => if q = "f" then some "A"
    else if q = rotName "f" "D" 1 then some "B" else none

/-- File sink due for rotation in a filesystem where every probe is taken. -/
def wFull : FileLogWriter :=
  { mw_fd := some "f", Filename := "f", Maxlines := 1, maxlines_curlines := 5,
    Maxsize := 0, maxsize_cursize := 7, Daily := false, Maxdays := 7,
    daily_opendata := 0, Rotate := true, Level := TRACE }

/-- Filesystem where every path exists (every rotated name is taken). -/
def fsFull : FS := fun _ => some ""

/-- File sink whose retention sweep runs over the entries below. -/
def wSweep : FileLogWriter :=
  { mw_fd := some "log/log.log", Filename := "log/log.log", Maxlines := 10000,
    maxlines_curlines := 0, Maxsize := 1, maxsize_cursize := 0, Daily := true,
    Maxdays := 7, daily_opendata := 0, Rotate := true, Level := TRACE }

/-- Walk entry whose lstat failed: the callback receives a nil FileInfo. -/
def eNilInfo : WalkEntry := { path := "log/stray", info := none }

/-- Walk entry for an expired rotated file sharing the configured prefix. -/
def eExpired : WalkEntry :=
  { path := "log/log.log.2020-01-01.001", info := some { isDir := false, modTime := 0 } }

/-! Helper lemmas about the rotation probing loop and the restart path. -/

/-- Probing-loop characterisation, success case: when `n` is in range, its
name is free and every earlier sequence number is taken, the loop returns
exactly the name of `n`. -/
theorem findFreeNameFrom_eq_some (fs : FS) (base d : String) (n : Nat) :
    ∀ fuel num, num + fuel = 1000 → num ≤ n → n ≤ 999 →
    (fs (rotName base d n)).isSome = false →
    (∀ m, num ≤ m → m < n → (fs (rotName base d m)).isSome = true) →
    findFreeNameFrom fs base d num fuel = some (rotName base d n) := by
  intro fuel
  induction fuel with
  | zero => intro num h hn h999 _ _; omega
  | succ fuel ih =>
    intro num h hn h999 hfree htaken
    have hnum : num ≤ 999 := by omega
    by_cases hcase : num = n
    · subst hcase
      simp [findFreeNameFrom, hnum, hfree]
    · have h1 : (fs (rotName base d num)).isSome = true :=
        htaken num le_rfl (by omega)
      simp [findFreeNameFrom, hnum, h1]
      exact ih (num + 1) (by omega) (by omega) h999 hfree
        (fun m hm hmn => htaken m (by omega) hmn)

/-- Probing-loop characterisation, exhaustion case: the loop returns none
exactly when every sequence number still in range is taken. -/
theorem findFreeNameFrom_eq_none (fs : FS) (base d : String) :
    ∀ fuel num, num + fuel = 1000 →
    (findFreeNameFrom fs base d num fuel = none ↔
      ∀ m, num ≤ m → m ≤ 999 → (fs (rotName base d m)).isSome = true) := by
  intro fuel
  induction fuel with
  | zero =>
    intro num h
    constructor
    · intro _ m hm hm9; omega
    · intro _; rfl
  | succ fuel ih =>
    intro num h
    have hnum : num ≤ 999 := by omega
    by_cases htk : (fs (rotName base d num)).isSome = true
    · simp only [findFreeNameFrom, if_pos hnum, htk, if_true]
      rw [ih (num + 1) (by omega)]
      constructor
      · intro hall m hm hm9
        rcases Nat.eq_or_lt_of_le hm with hm' | hm'
        · exact hm' ▸ htk
        · exact hall m (by omega) hm9
      · intro hall m hm hm9
        exact hall m (by omega) hm9
    · simp only [Bool.not_eq_true] at htk
      simp only [findFreeNameFrom, if_pos hnum, htk, Bool.false_eq_true, if_false]
      constructor
      · intro hcontra; exact absurd hcontra (by simp)
      · intro hall
        have hh := hall num le_rfl hnum
        rw [htk] at hh
        exact absurd hh (by simp)

/-- Every name the probing loop returns is the rotated name of some free
sequence number in range. -/
theorem findFreeNameFrom_some_shape (fs : FS) (base d : String) :
    ∀ fuel num f, findFreeNameFrom fs base d num fuel = some f →
      ∃ k, num ≤ k ∧ k ≤ 999 ∧ f = rotName base d k ∧
        (fs (rotName base d k)).isSome = false := by
  intro fuel
  induction fuel with
  | zero => intro num f h; exact absurd h (by simp [findFreeNameFrom])
  | succ fuel ih =>
    intro num f h
    by_cases hnum : num ≤ 999
    · by_cases htk : (fs (rotName base d num)).isSome = true
      · simp only [findFreeNameFrom, if_pos hnum, htk, if_true] at h
        obtain ⟨k, hk1, hk2, hk3, hk4⟩ := ih (num + 1) f h
        exact ⟨k, by omega, hk2, hk3, hk4⟩
      · simp only [Bool.not_eq_true] at htk
        simp only [findFreeNameFrom, if_pos hnum, htk, Bool.false_eq_true, if_false,
          Option.some.injEq] at h
        exact ⟨num, le_rfl, hnum, h.symm, htk⟩
    · simp only [findFreeNameFrom, if_neg hnum] at h
      exact absurd h (by simp)

/-- Length of a rotated name in terms of its parts. -/
theorem rotName_length (base d : String) (n : Nat) :
    (rotName base d n).length = base.length + 2 + d.length + (fmt3 n).length := by
  have h1 : String.length "." = 1 := rfl
  simp [rotName, String.length_append, h1]
  omega

/-- A rotated name is never the original path. -/
theorem rotName_ne_base (base d : String) (n : Nat) : rotName base d n ≠ base := by
  intro h
  have h2 := congrArg String.length h
  rw [rotName_length] at h2
  omega

/-- The zero-padded sequence renders with exactly three digits in range. -/
theorem fmt3_len (n : Nat) (h : n ≤ 999) : (fmt3 n).length = 3 := by
  unfold fmt3
  split
  · rfl
  · split
    · rfl
    · split
      · rfl
      · omega

/-- Restarting the logger against a filesystem in which the active path is
absent creates the file empty, installs the descriptor, zeroes the line
counter and re-derives the day — leaving maxsize_cursize alone. -/
theorem startLogger_fresh (w : FileLogWriter) (fs : FS) (today : Int)
    (h : fs w.Filename = none) :
    w.startLogger fs today
      = Except.ok ({ w with mw_fd := some w.Filename, maxlines_curlines := 0,
                            daily_opendata := today },
                   FS.insert fs w.Filename "") := by
  unfold FileLogWriter.startLogger FileLogWriter.createLogFile FileLogWriter.setFd
    FileLogWriter.initFd
  simp [h, FS.insert]

/-! Claim theorems. -/

/-- C1: a message below the configured minimum severity is dropped with no
error and produces no write — neither by the dispatcher filter (the
envelope is not enqueued) nor by the file sink (state and filesystem
untouched); a message at or above the minimum is enqueued by the
dispatcher, and appended to the open file by the sink. -/
theorem submit_level_filter (L1 L2 : LogLevel) (hlt : L1 < L2)
    (l : Logger) (hl : l.level = L2) (caller : Option Frame) (skip : Int)
    (msg : String) (w : FileLogWriter) (hw : w.Level = L2) (hr : w.Rotate = false)
    (p : String) (hfd : w.mw_fd = some p)
    (fs : FS) (today : Int) (d stamp : String) :
    (Logger.writeMsg l caller skip L1 msg = (l, none))
  ∧ (∀ L, L2 ≤ L → (Logger.writeMsg l caller skip L msg).1.msgChan.length
        = l.msgChan.length + 1 ∧ (Logger.writeMsg l caller skip L msg).2 = none)
  ∧ (w.WriteMsg fs today d stamp msg skip L1 = (w, fs, none))
  ∧ (∀ L, L2 ≤ L →
      ((w.WriteMsg fs today d stamp msg skip L).2.1) p
        = some ((fs p).getD "" ++ (stamp ++ msg ++ "\n"))) := by
  refine ⟨?_, ?_, ?_, ?_⟩
  · simp [Logger.writeMsg, hl, hlt]
  · intro L hL
    constructor
    · simp [Logger.writeMsg, hl, not_lt.mpr hL]
    · unfold Logger.writeMsg
      split
      · rfl
      · rfl
  · simp [FileLogWriter.WriteMsg, hw, hlt]
  · intro L hL
    have hnl : ¬ (L < w.Level) := by
      rw [hw]
      exact not_lt.mpr hL
    simp [FileLogWriter.WriteMsg, hnl, FileLogWriter.docheck, FileLogWriter.needRotate,
      hr, hfd, FS.append]

/-- C1 witness: with minimum severity INFO, a TRACE submission changes
nothing and returns nil, while an INFO submission enqueues one envelope
and appends one line to the file. -/
theorem submit_level_filter_witness :
    TRACE < INFO
  ∧ Logger.writeMsg ⟨INFO, []⟩ none 0 TRACE "m" = (⟨INFO, []⟩, none)
  ∧ (Logger.writeMsg ⟨INFO, []⟩ none 0 INFO "m").1.msgChan.length = 1
  ∧ wInfo.WriteMsg fsF 1 "" "ts " "m" 0 TRACE = (wInfo, fsF, none)
  ∧ ((wInfo.WriteMsg fsF 1 "" "ts " "m" 0 INFO).2.1) "f"
      = some ((fsF "f").getD "" ++ ("ts " ++ "m" ++ "\n")) := by
  have h := submit_level_filter TRACE INFO (by decide) ⟨INFO, []⟩ rfl none 0 "m"
    wInfo rfl rfl "f" rfl fsF 1 "" "ts "
  refine ⟨by decide, h.1, ?_, h.2.2.1, h.2.2.2 INFO le_rfl⟩
  have h2 := (h.2.1 INFO le_rfl).1
  simpa using h2

/-- C2: after a line-bound rotation triggered by docheck, maxlines_curlines
and daily_opendata are re-derived, the active file was renamed aside and
reopened empty — but maxsize_cursize carries its pre-rotation value (110 =
100 + 10 instead of 0 + 10): the byte counter is never reset by a
rotation, contradicting the atomic-reset invariant. -/
theorem rotation_not_resetting_byte_counter :
    (wRot.docheck fsRot 5 "2026-01-02" 10).1.maxsize_cursize = 110
  ∧ (wRot.docheck fsRot 5 "2026-01-02" 10).1.maxlines_curlines = 1
  ∧ (wRot.docheck fsRot 5 "2026-01-02" 10).1.daily_opendata = 5
  ∧ ((wRot.docheck fsRot 5 "2026-01-02" 10).2) "log/log.log.2026-01-02.001"
      = some "x\n"
  ∧ ((wRot.docheck fsRot 5 "2026-01-02" 10).2) "log/log.log" = some ""
  ∧ (110 : Int) ≠ 0 + 10 := by
  refine ⟨by decide, by decide, by decide, by decide, by decide, by decide⟩

/-- C3 counterexample: the trace of Fatal contains no flush of the sinks,
refuting the flush-then-close-then-exit sequence at the concrete call
Fatal("boom"). -/
theorem Fatal_skips_flush_cex : DispAct.flushSinks ∉ Logger.FatalTrace 0 "boom" := by
  decide

/-- C3 amended: Fatal submits the FATAL-tagged message, then closes the
dispatcher, then exits the process with the non-zero status 1 — with no
Flush anywhere in the sequence. -/
theorem Fatal_sequence (skip : Int) (msg : String) :
    Logger.FatalTrace skip msg
      = [DispAct.submitMsg skip FATAL ("[F] " ++ msg), DispAct.closeLoop,
         DispAct.exitProc 1]
  ∧ DispAct.flushSinks ∉ Logger.FatalTrace skip msg
  ∧ (1 : Int) ≠ 0 := by
  refine ⟨rfl, ?_, by decide⟩
  simp [Logger.FatalTrace]

/-- C4 counterexample: reopening against the pre-existing file "a\n", which
holds one newline-delimited record, sets maxlines_curlines to 2, not 1. -/
theorem initFd_overcounts_records :
    wReopen.initFd fsOneRec 3
      = Except.ok { wReopen with maxlines_curlines := 2, daily_opendata := 3 }
  ∧ newlineRecords "a\n" = 1
  ∧ (2 : Int) ≠ ((newlineRecords "a\n" : Nat) : Int) := ⟨rfl, rfl, by decide⟩

/-- C4 amended: reopening a sink against a pre-existing non-empty file sets
maxlines_curlines to the length of Go's Split of the content on newlines —
the newline count plus one, which exceeds the newline-terminated record
count by one for files ending in a newline — and daily_opendata to the
current day. -/
theorem initFd_counts_split (w : FileLogWriter) (fs : FS) (today : Int)
    (content : String) (hfd : w.mw_fd = some w.Filename)
    (hc : fs w.Filename = some content) (hne : 0 < content.length) :
    w.initFd fs today
      = Except.ok { w with maxlines_curlines := (countSplitNewline content : Int),
                           daily_opendata := today }
  ∧ countSplitNewline content = content.toList.count '\n' + 1 := by
  constructor
  · unfold FileLogWriter.initFd
    simp only [hfd, hc]
    rw [if_pos hne]
  · rfl

/-- C4 amended witness: the concrete reopen against "a\n" lands exactly on
the split-segment count. -/
theorem initFd_counts_split_witness :
    wReopen.mw_fd = some wReopen.Filename
  ∧ fsOneRec wReopen.Filename = some "a\n"
  ∧ 0 < ("a\n").length
  ∧ wReopen.initFd fsOneRec 3
      = Except.ok { wReopen with maxlines_curlines := (countSplitNewline "a\n" : Int),
                                 daily_opendata := 3 } :=
  ⟨rfl, rfl, by decide,
    (initFd_counts_split wReopen fsOneRec 3 "a\n" rfl rfl (by decide)).1⟩

/-- C5: doRotate names the rotated file base.date.NNN with a three-digit
zero-padded sequence, probing 1..999 in increasing order and renaming onto
the first unused name (so .002 is chosen when .001 exists), and it returns
the rotation-exhausted error exactly when all 999 names of the day are
taken. -/
theorem doRotate_probes_first_free (w : FileLogWriter) (fs : FS) (today : Int)
    (d : String) (c : String) (hex : fs w.Filename = some c) :
    (∀ n, 1 ≤ n → n ≤ 999 → (fs (rotName w.Filename d n)).isSome = false →
      (∀ m, 1 ≤ m → m < n → (fs (rotName w.Filename d m)).isSome = true) →
      w.doRotate fs today d
        = Except.ok ⟨{ w with mw_fd := some w.Filename, maxlines_curlines := 0,
                              daily_opendata := today },
            FS.insert (FS.insert (FS.remove fs w.Filename) (rotName w.Filename d n) c)
              w.Filename "",
            some (rotName w.Filename d n), true⟩)
  ∧ ((w.doRotate fs today d
        = Except.error ("rotate: cannot find free log number ot rename "
            ++ w.Filename ++ "\n"))
      ↔ ∀ n, 1 ≤ n → n ≤ 999 → (fs (rotName w.Filename d n)).isSome = true)
  ∧ (∀ n, rotName w.Filename d n = w.Filename ++ "." ++ d ++ "." ++ fmt3 n)
  ∧ (∀ n, 1 ≤ n → n ≤ 999 → (fmt3 n).length = 3) := by
  refine ⟨?_, ?_, fun n => rfl, fun n _ h9 => fmt3_len n h9⟩
  · intro n h1 h9 hfree htaken
    have hfind : findFreeName fs w.Filename d = some (rotName w.Filename d n) :=
      findFreeNameFrom_eq_some fs w.Filename d n 999 1 rfl h1 h9 hfree
        (fun m hm hmn => htaken m hm hmn)
    have hfs1 : (FS.insert (FS.remove fs w.Filename) (rotName w.Filename d n) c)
        w.Filename = none := by
      have hne : w.Filename ≠ rotName w.Filename d n :=
        fun hh => rotName_ne_base w.Filename d n hh.symm
      simp [FS.insert, FS.remove, hne]
    have hsl := startLogger_fresh { w with mw_fd := none }
      (FS.insert (FS.remove fs w.Filename) (rotName w.Filename d n) c) today hfs1
    unfold FileLogWriter.doRotate
    rw [hex, hfind]
    simp only [hsl]
  · constructor
    · intro herr
      cases hfind : findFreeName fs w.Filename d with
      | none =>
        intro n h1 h9
        exact (findFreeNameFrom_eq_none fs w.Filename d 999 1 rfl).mp hfind n h1 h9
      | some f =>
        exfalso
        obtain ⟨k, hk1, hk2, hk3, hk4⟩ :=
          findFreeNameFrom_some_shape fs w.Filename d 999 1 f hfind
        have hfs1 : (FS.insert (FS.remove fs w.Filename) (rotName w.Filename d k) c)
            w.Filename = none := by
          have hne : w.Filename ≠ rotName w.Filename d k :=
            fun hh => rotName_ne_base w.Filename d k hh.symm
          simp [FS.insert, FS.remove, hne]
        have hsl := startLogger_fresh { w with mw_fd := none }
          (FS.insert (FS.remove fs w.Filename) (rotName w.Filename d k) c) today hfs1
        rw [hk3] at hfind
        unfold FileLogWriter.doRotate at herr
        rw [hex, hfind] at herr
        simp only [hsl] at herr
        exact Except.noConfusion herr
    · intro hall
      have hfind : findFreeName fs w.Filename d = none :=
        (findFreeNameFrom_eq_none fs w.Filename d 999 1 rfl).mpr
          (fun m hm hm9 => hall m hm hm9)
      unfold FileLogWriter.doRotate
      rw [hex, hfind]

/-- C5 witness: with .001 already present and .002 free, the second rotation
of the day renames the active file onto the .002 name. -/
theorem doRotate_probes_witness :
    fsSeq "f" = some "A"
  ∧ (fsSeq (rotName "f" "D" 2)).isSome = false
  ∧ (fsSeq (rotName "f" "D" 1)).isSome = true
  ∧ wSeq.doRotate fsSeq 9 "D"
      = Except.ok ⟨{ wSeq with mw_fd := some "f", maxlines_curlines := 0,
                               daily_opendata := 9 },
          FS.insert (FS.insert (FS.remove fsSeq "f") (rotName "f" "D" 2) "A") "f" "",
          some (rotName "f" "D" 2), true⟩ := by
  refine ⟨rfl, by decide, by decide, ?_⟩
  exact (doRotate_probes_first_free wSeq fsSeq 9 "D" "A" rfl).1 2 (by omega) (by omega)
    (by decide)
    (by
      intro m h1 h2
      have hm : m = 1 := by omega
      subst hm
      decide)

/-- C6 counterexample: with rotation due but every rotated name taken,
doRotate fails and docheck returns with both counters unchanged — the line
counter is not incremented, refuting the increment-even-on-failure claim. -/
theorem docheck_skips_increment_cex :
    wFull.needRotate 0 = true
  ∧ wFull.docheck fsFull 0 "d" 10 = (wFull, fsFull)
  ∧ (wFull.docheck fsFull 0 "d" 10).1.maxlines_curlines
      ≠ wFull.maxlines_curlines + 1 := by
  have hnone : findFreeName fsFull wFull.Filename "d" = none :=
    (findFreeNameFrom_eq_none fsFull wFull.Filename "d" 999 1 rfl).mpr
      (fun m hm hm9 => rfl)
  have herr : wFull.doRotate fsFull 0 "d"
      = Except.error ("rotate: cannot find free log number ot rename "
          ++ wFull.Filename ++ "\n") := by
    unfold FileLogWriter.doRotate
    rw [show fsFull wFull.Filename = some "" from rfl, hnone]
  have hd : wFull.docheck fsFull 0 "d" 10 = (wFull, fsFull) := by
    simp [FileLogWriter.docheck, show wFull.needRotate 0 = true from rfl, herr]
  refine ⟨rfl, hd, ?_⟩
  rw [hd]
  decide

/-- C6 amended: after the rotation check, the line counter is incremented by
one and the byte counter by the estimated size whenever no rotation was
attempted or the attempted rotation succeeded; when the rotation attempt
fails, docheck returns early and neither counter is incremented. -/
theorem docheck_counter_update (w : FileLogWriter) (fs : FS) (today : Int)
    (d : String) (size : Int) :
    (w.needRotate today = false →
      w.docheck fs today d size
        = ({ w with maxlines_curlines := w.maxlines_curlines + 1,
                    maxsize_cursize := w.maxsize_cursize + size }, fs))
  ∧ (∀ r : RotateOut, w.needRotate today = true →
      w.doRotate fs today d = Except.ok r →
      w.docheck fs today d size
        = ({ r.w with maxlines_curlines := r.w.maxlines_curlines + 1,
                      maxsize_cursize := r.w.maxsize_cursize + size }, r.fs))
  ∧ (∀ e : String, w.needRotate today = true →
      w.doRotate fs today d = Except.error e →
      w.docheck fs today d size = (w, fs)) := by
  refine ⟨?_, ?_, ?_⟩
  · intro h
    simp [FileLogWriter.docheck, h]
  · intro r h h2
    simp [FileLogWriter.docheck, h, h2]
  · intro e h h2
    simp [FileLogWriter.docheck, h, h2]

/-- C6 amended witness: a due-but-exhausted rotation leaves both counters
untouched. -/
theorem docheck_counter_update_witness :
    wFull.needRotate 0 = true
  ∧ wFull.docheck fsFull 0 "d" 10 = (wFull, fsFull) := by
  have hnone : findFreeName fsFull wFull.Filename "d" = none :=
    (findFreeNameFrom_eq_none fsFull wFull.Filename "d" 999 1 rfl).mpr
      (fun m hm hm9 => rfl)
  have herr : wFull.doRotate fsFull 0 "d"
      = Except.error ("rotate: cannot find free log number ot rename "
          ++ wFull.Filename ++ "\n") := by
    unfold FileLogWriter.doRotate
    rw [show fsFull wFull.Filename = some "" from rfl, hnone]
  exact ⟨rfl, (docheck_counter_update wFull fsFull 0 "d" 10).2.2 _ rfl herr⟩

/-- C7: adding a sink of an unregistered kind panics (halting the process)
with the unknown-adapter message instead of returning an error, and leaves
the sink map unchanged — evaluated with only the console generator
registered and the file kind requested. -/
theorem AddLogger_unknown_kind_panics :
    Logger.AddLogger adConsole s0 LogFile
      = (s0, CallOutcome.panicked "log: unknown adapterfile") := by decide

/-- C8 counterexample: adding the same kind twice leaves two handles open —
the replaced instance is never closed, refuting the exactly-one-handle
claim. -/
theorem double_add_leaks_cex :
    ((Logger.AddLogger adAll (Logger.AddLogger adAll s0 LogConsole).1
        LogConsole).1.handles.length = 2)
  ∧ (2 : Nat) ≠ 1 := by decide

/-- C8 amended: adding a registered kind always opens one more handle and
never closes the handle of the instance it replaces (the replaced handle
stays open), while DelLogger of a present kind closes exactly one handle;
hence handles leak precisely when an add replaces an existing instance. -/
theorem AddLogger_replacement_leaks (adapters : LogType → Bool) (s : DispState)
    (t : LogType) (h : adapters t = true) (id : Nat)
    (hid : lookupOut s.outputs t = some id) (hmem : id ∈ s.handles) :
    (Logger.AddLogger adapters s t).1.handles.length = s.handles.length + 1
  ∧ id ∈ (Logger.AddLogger adapters s t).1.handles
  ∧ (Logger.DelLogger s t).1.handles.length + 1 = s.handles.length := by
  refine ⟨?_, ?_, ?_⟩
  · simp [Logger.AddLogger, h]
  · simp [Logger.AddLogger, h]
    exact Or.inl hmem
  · have h3 := List.length_erase_of_mem hmem
    have h4 : 0 < s.handles.length := List.length_pos.mpr (List.ne_nil_of_mem hmem)
    simp [Logger.DelLogger, hid, h3]
    omega

/-- C8 amended witness: the re-add of the console kind opens a second handle
while the first instance's handle stays open. -/
theorem AddLogger_replacement_leaks_witness :
    adAll LogConsole = true
  ∧ lookupOut (Logger.AddLogger adAll s0 LogConsole).1.outputs LogConsole = some 0
  ∧ (0 : Nat) ∈ (Logger.AddLogger adAll s0 LogConsole).1.handles
  ∧ (Logger.AddLogger adAll (Logger.AddLogger adAll s0 LogConsole).1
        LogConsole).1.handles.length
      = (Logger.AddLogger adAll s0 LogConsole).1.handles.length + 1 := by
  refine ⟨rfl, by decide, by decide, ?_⟩
  exact (AddLogger_replacement_leaks adAll (Logger.AddLogger adAll s0 LogConsole).1
    LogConsole rfl 0 (by decide) (by decide)).1

/-- C9 counterexample: a nil-FileInfo entry makes the recovered panic come
back as the callback's error, which stops filepath.Walk — the later
expired, prefix-matching file (which sweepStep would remove) is never
visited and nothing is deleted. -/
theorem sweep_aborts_cex :
    wSweep.deleteOldLog 1000000000 [eNilInfo, eExpired]
      = ([], some "Unable to delete old log log/stray")
  ∧ wSweep.sweepStep 1000000000 eExpired = (true, none) := ⟨by decide, by decide⟩

/-- C9 amended: a per-file failure is recovered into an error value rather
than a crash, but because the callback returns that error the walk ends at
the failing entry: the sweep's removals are exactly those of the preceding
entries, and every later entry is untouched. -/
theorem sweep_stops_at_first_error (w : FileLogWriter) (now : Int)
    (pre post : List WalkEntry) (e : WalkEntry)
    (hpre : ∀ x ∈ pre, (w.sweepStep now x).2 = none)
    (he : (w.sweepStep now e).2.isSome = true) :
    (w.deleteOldLog now (pre ++ e :: post)).2 = (w.sweepStep now e).2
  ∧ (w.deleteOldLog now (pre ++ e :: post)).1 = (w.deleteOldLog now pre).1 := by
  induction pre with
  | nil =>
    obtain ⟨err, herr⟩ := Option.isSome_iff_exists.mp he
    simp [FileLogWriter.deleteOldLog, herr]
  | cons x rest ih =>
    have hx : (w.sweepStep now x).2 = none := hpre x (by simp)
    have ih2 := ih (fun y hy => hpre y (by simp [hy]))
    constructor
    · simpa [FileLogWriter.deleteOldLog, hx] using ih2.1
    · simp [FileLogWriter.deleteOldLog, hx, ih2.2]

/-- C9 amended witness: with the failing entry first, the sweep removes
nothing at all. -/
theorem sweep_stops_witness :
    ((wSweep.sweepStep 1000000000 eNilInfo).2.isSome = true)
  ∧ (wSweep.deleteOldLog 1000000000 ([] ++ eNilInfo :: [eExpired])).1
      = (wSweep.deleteOldLog 1000000000 []).1 := by
  refine ⟨by decide, ?_⟩
  exact (sweep_stops_at_first_error wSweep 1000000000 [] [eExpired] eNilInfo
    (by
      intro x hx
      simp at hx) (by decide)).2

/-- C10: when the active file is absent, doRotate returns success having done
nothing: no rename, no reopen, no retention sweep, and every field of the
sink state and the whole filesystem unchanged. -/
theorem doRotate_missing_file_noop (w : FileLogWriter) (fs : FS) (today : Int)
    (d : String) (h : fs w.Filename = none) :
    w.doRotate fs today d = Except.ok ⟨w, fs, none, false⟩ := by
  unfold FileLogWriter.doRotate
  rw [h]

/-- C10 witness: rotating with an empty filesystem is a successful no-op. -/
theorem doRotate_missing_file_noop_witness :
    fsEmpty wSeq.Filename = none
  ∧ wSeq.doRotate fsEmpty 0 "D" = Except.ok ⟨wSeq, fsEmpty, none, false⟩ :=
  ⟨rfl, doRotate_missing_file_noop wSeq fsEmpty 0 "D" rfl⟩

end Logs
